import Mathlib

/-!
Shallow embedding of the smart CV / job matching pipeline
(src/scripts/search_script.py, src/scripts/resume_ner_bert.py).

Python strings are modelled as Lean String (code points), Python floats as
rationals (all values the claims mention are exactly representable), Python
exceptions as Except String, and Python None via Option. Character-wise
ASCII lowering (pyLower) stands in for str.lower, which agrees on every
string the claims touch.
-/

namespace SmartCV

/-- Python truthiness of a string: falsy exactly when empty.
Models the idiom a or b on strings. -/
def pyOr (a b : String) : String := if a = "" then b else a

/-- Python substring test, the expression needle in hay on str values. -/
def strContains (hay needle : String) : Bool := decide (needle.data <:+: hay.data)

/-- Python str.lower, character by character (ASCII case mapping). -/
def pyLower (s : String) : String := String.mk (s.data.map Char.toLower)

/-- Python str.strip() with no argument: drop whitespace from both ends. -/
def pyStripWs (s : String) : String :=
  String.mk (((s.data.dropWhile Char.isWhitespace).reverse.dropWhile Char.isWhitespace).reverse)

/-- Intent record produced by get_filter_json (groq_prompter.py); every field
nullable, per the JSON contract (null when a filter is not mentioned). -/
structure Intent where
  title : Option String
  location : Option String
  experience : Option String
  work_type : Option String
  company : Option String
deriving DecidableEq

/-- Embedding of get_fuzzy_locations (search_script.py lines 26-29):
if not user_loc return [], else keep cache entries whose lowercase form
contains the lowercased user location. The module global UNIQUE_LOCATIONS
is passed explicitly as the cache parameter. -/
def get_fuzzy_locations (cache : List String) (user_loc : String) : List String :=
  if user_loc = "" then []
  else cache.filter (fun loc => strContains (pyLower loc) (pyLower user_loc))

/-- Wrapper for a possibly-None user location: Python not None is also falsy
in the guard if not user_loc. -/
def get_fuzzy_locations_opt (cache : List String) : Option String → List String
  | none => []
  | some s => get_fuzzy_locations cache s

/-- One Chroma where clause: an equality clause or a membership clause. -/
inductive WhereClause where
  | eq (field value : String)
  | inn (field : String) (values : List String)
deriving DecidableEq

/-- Top level Chroma where expression. The target filter language also has
a disjunction; the compiler is claimed never to emit it. -/
inductive WhereFilter where
  | single (c : WhereClause)
  | and (cs : List WhereClause)
  | or (cs : List WhereClause)
deriving DecidableEq

/-- Field name of a clause. -/
def clauseField : WhereClause → String
  | .eq f _ => f
  | .inn f _ => f

/-- Clauses contributed by intent.experience (search_script.py lines 64-65);
Python truthiness makes both a missing key and an empty string contribute
nothing. -/
def experienceClauses (intent : Intent) : List WhereClause :=
  match intent.experience with
  | some e => if e = "" then [] else [.eq "experience" e]
  | none => []

/-- Clauses contributed by intent.work_type (search_script.py lines 66-67). -/
def workTypeClauses (intent : Intent) : List WhereClause :=
  match intent.work_type with
  | some w => if w = "" then [] else [.eq "work_type" w]
  | none => []

/-- Clauses contributed by intent.location (search_script.py lines 70-73):
the fuzzy expansion is computed and the IN clause is added only when the
expansion is non-empty. -/
def locationClauses (cache : List String) (intent : Intent) : List WhereClause :=
  match intent.location with
  | some l =>
    if l = "" then []
    else
      if get_fuzzy_locations cache l = [] then []
      else [.inn "location" (get_fuzzy_locations cache l)]
  | none => []

/-- The where_clauses list of search_script.py lines 61-73, in source order:
experience, then work_type, then location. -/
def buildWhereClauses (cache : List String) (intent : Intent) : List WhereClause :=
  experienceClauses intent ++ workTypeClauses intent ++ locationClauses cache intent

/-- Combination step (search_script.py lines 76-80): more than one clause
becomes an AND, exactly one is used bare, zero means no filter. -/
def combineWhere : List WhereClause → Option WhereFilter
  | [] => none
  | [c] => some (.single c)
  | c1 :: c2 :: rest => some (.and (c1 :: c2 :: rest))

/-- Full filter compilation from an intent and the location cache. -/
def compileFilter (cache : List String) (intent : Intent) : Option WhereFilter :=
  combineWhere (buildWhereClauses cache intent)

/-- Clause list carried by a compiled filter. -/
def filterClauses : Option WhereFilter → List WhereClause
  | none => []
  | some (.single c) => [c]
  | some (.and cs) => cs
  | some (.or cs) => cs

/-- Base query of search_script.py line 84:
intent.get("title") or additional_query or "". -/
def base_query_of (intent : Intent) (additional_query : String) : String :=
  pyOr (intent.title.getD "") (pyOr additional_query "")

/-- Rich query of search_script.py lines 84-91: with NER the boost string
joins roles, skills, education and locations with single spaces and is
appended to the base query after one separator space. -/
def compose_rich_query (intent : Intent) (additional_query : String) (ner_applied : Bool)
    (roles skills education locations : List String) : String :=
  if ner_applied then
    base_query_of intent additional_query ++ " " ++
      String.intercalate " " (roles ++ skills ++ education ++ locations)
  else
    base_query_of intent additional_query

/-- Term filter of search_script.py lines 49-52: keep NER terms of length
strictly greater than 2. -/
def filter_ner_terms (lst : List String) : List String :=
  lst.filter (fun s => 2 < s.length)

/-- Rounding to the nearest integer with ties to even, the rounding Python
round applies to the exact value. -/
def pyRoundHalfEven (x : ℚ) : ℤ :=
  if x - (⌊x⌋ : ℚ) < 1/2 then ⌊x⌋
  else if 1/2 < x - (⌊x⌋ : ℚ) then ⌊x⌋ + 1
  else if ⌊x⌋ % 2 = 0 then ⌊x⌋ else ⌊x⌋ + 1

/-- Python round(x, 2). -/
def pyRound2 (x : ℚ) : ℚ := ((pyRoundHalfEven (x * 100) : ℤ) : ℚ) / 100

/-- Score of search_script.py line 109: round((1 - distance) * 100, 2). -/
def matchScore (distance : ℚ) : ℚ := pyRound2 ((1 - distance) * 100)

/-! Embedding of resume_ner_bert.py. The transformers pipeline and its
tokenizer are external collaborators; they enter as the NerPipe record, and
the lazy module-level load (the _get_pipeline cache) enters as an Except
value: ok when the model loads, error when loading raises. -/

/-- Output shape of parse_resume_ner_bert. -/
structure NerOutput where
  roles : List String
  skills : List String
  education : List String
  locations : List String
deriving DecidableEq

/-- The all-empty NER output. -/
def emptyNerOutput : NerOutput :=
  { roles := [], skills := [], education := [], locations := [] }

/-- One entity dict produced by the token-classification pipeline; word and
score carry the Python dict-get defaults, the two label keys are nullable. -/
structure NerItem where
  score : ℚ
  entity_group : Option String
  entity : Option String
  word : String

/-- External model state: the tokenizer encode and decode maps and the
chunk-level inference call, which may raise (modelled as Except Unit). -/
structure NerPipe where
  encode : String → List Nat
  decode : List Nat → String
  run : String → Except Unit (List NerItem)

/-- Constant RESUME_NER_MODEL of resume_ner_bert.py. -/
def RESUME_NER_MODEL : String := "yashpwr/resume-ner-bert-v2"

/-- Constant CHUNK_SIZE of resume_ner_bert.py. -/
def CHUNK_SIZE : Nat := 120

/-- Constant CHUNK_OVERLAP of resume_ner_bert.py. -/
def CHUNK_OVERLAP : Nat := 30

/-- Message of the RuntimeError raised by _get_pipeline on load failure. -/
def NER_LOAD_FAIL_MSG : String :=
  "Failed to load resume NER model yashpwr/resume-ner-bert-v2. Install with: pip install transformers torch"

/-- Table LABEL_TO_KEY of resume_ner_bert.py. -/
def LABEL_TO_KEY : List (String × String) :=
  [("Designation", "roles"), ("Skills", "skills"), ("Degree", "education"),
   ("College Name", "education"), ("Location", "locations")]

/-- Python LABEL_TO_KEY.get: exact key lookup. -/
def lookupLabel (label : String) : Option String :=
  (LABEL_TO_KEY.find? (fun p => p.1 = label)).map Prod.snd

/-- Loop of the Python str.replace embedding: scan left to right, replacing
each non-overlapping occurrence of the pattern. Fuel is the remaining input
length; every step consumes at least one character for non-empty patterns. -/
def replaceGo (pat rep : List Char) : Nat → List Char → List Char
  | _, [] => []
  | 0, l => l
  | fuel + 1, c :: rest =>
    if pat.isPrefixOf (c :: rest) then rep ++ replaceGo pat rep fuel ((c :: rest).drop pat.length)
    else c :: replaceGo pat rep fuel rest

/-- Python str.replace for a non-empty pattern (the only way the source
uses it). -/
def pyReplace (s pat rep : String) : String :=
  if pat = "" then s
  else String.mk (replaceGo pat.data rep.data s.data.length s.data)

/-- Embedding of _label_to_key: exact lookup first, then lookup of the label
with B- and I- markers removed and whitespace stripped. -/
def label_to_key (label : String) : Option String :=
  if label = "" then none
  else
    match lookupLabel label with
    | some k => some k
    | none => lookupLabel (pyStripWs (pyReplace (pyReplace label "B-" "") "I-" ""))

/-- Loop of the whitespace split: accumulate a current token, emit it at
each whitespace run, drop empty pieces. -/
def splitWsGo : List Char → List Char → List String
  | cur, [] => if cur = [] then [] else [String.mk cur.reverse]
  | cur, c :: rest =>
    if c.isWhitespace then
      if cur = [] then splitWsGo [] rest
      else String.mk cur.reverse :: splitWsGo [] rest
    else splitWsGo (c :: cur) rest

/-- Python s.split() with no argument: split on whitespace runs, dropping
empty pieces. -/
def pySplitWs (s : String) : List String := splitWsGo [] s.data

/-- Embedding of _normalize: collapse whitespace runs to single spaces and
strip the ends. -/
def normalize (s : String) : String :=
  pyStripWs (String.intercalate " " (pySplitWs s))

/-- Python s.strip(chars): drop the given characters from both ends. -/
def stripChars (cs : List Char) (s : String) : String :=
  String.mk (((s.data.dropWhile (fun c => c ∈ cs)).reverse.dropWhile (fun c => c ∈ cs)).reverse)

/-- The strip set ".,; " used on entity words. -/
def wordStripSet : List Char := ['.', ',', ';', ' ']

/-- Constant CONFIDENCE_THRESHOLD of resume_ner_bert.py. -/
def CONFIDENCE_THRESHOLD : ℚ := 1/2

/-- Constant SKILLS_BLOCKLIST of resume_ner_bert.py. -/
def SKILLS_BLOCKLIST : List String := ["skills", "education", "learning education", ",", ""]

/-- Constant STATE_CODES of resume_ner_bert.py. -/
def STATE_CODES : List String :=
  ["ma", "ca", "ny", "tx", "fl", "il", "pa", "oh", "ga", "nc",
   "mi", "nj", "va", "wa", "az", "co", "or", "tn", "mo", "md"]

/-- The location noise set checked for key locations. -/
def LOCATION_NOISE : List String := ["python", "java", "sql", "aws", "ca"]

/-- Loop body of _unique: normalize, drop short entries, dedupe on the
lowercased key keeping first-seen order. -/
def uniqueGo (minLen : Nat) : List String → List String → List String → List String
  | _, out, [] => out.reverse
  | seen, out, x :: rest =>
    let x := normalize x
    if x.length < minLen then uniqueGo minLen seen out rest
    else
      if pyLower x ∈ seen then uniqueGo minLen seen out rest
      else uniqueGo minLen (pyLower x :: seen) (x :: out) rest

/-- Embedding of _unique. -/
def unique (minLen : Nat) (lst : List String) : List String :=
  uniqueGo minLen [] [] lst

/-- While loop of _chunk_text. Fuel bounds the iteration count; each pass
advances start by max_tokens - overlap, so tokens.length + 1 units of fuel
cover every call the source makes (120 versus 30). -/
def chunkGo (decode : List Nat → String) (tokens : List Nat) (maxTokens overlap : Nat) :
    Nat → Nat → List String → List String
  | 0, _, acc => acc.reverse
  | fuel + 1, start, acc =>
    if start < tokens.length then
      let chunk_text := decode ((tokens.drop start).take maxTokens)
      let acc2 := if pyStripWs chunk_text = "" then acc else chunk_text :: acc
      let start2 := start + maxTokens - overlap
      if tokens.length ≤ start2 then acc2.reverse
      else chunkGo decode tokens maxTokens overlap fuel start2 acc2
    else acc.reverse

/-- Embedding of _chunk_text: short texts pass through whole, longer token
streams are cut into overlapping decoded chunks. -/
def chunk_text (encode : String → List Nat) (decode : List Nat → String)
    (text : String) (maxTokens overlap : Nat) : List String :=
  let tokens := encode text
  if tokens.length ≤ maxTokens then [text]
  else
    let chunks := chunkGo decode tokens maxTokens overlap (tokens.length + 1) 0 []
    if chunks = [] then [text] else chunks

/-- Accumulator of the collection loop of parse_resume_ner_bert. -/
structure NerCollected where
  roles : List String
  skills : List String
  education : List String
  locations : List String
deriving DecidableEq

/-- The empty accumulator. -/
def emptyCollected : NerCollected :=
  { roles := [], skills := [], education := [], locations := [] }

/-- Append a word under a string key, mirroring collected[key].append(word). -/
def addToKey (coll : NerCollected) (key : String) (word : String) : NerCollected :=
  if key = "roles" then { coll with roles := coll.roles ++ [word] }
  else if key = "skills" then { coll with skills := coll.skills ++ [word] }
  else if key = "education" then { coll with education := coll.education ++ [word] }
  else if key = "locations" then { coll with locations := coll.locations ++ [word] }
  else coll

/-- Python str.split(sep) for a single separator character, keeping empty
pieces, the shape word.split(",") takes in the source. -/
def splitOnChar (sep : Char) : List Char → List (List Char)
  | [] => [[]]
  | c :: rest =>
    if c = sep then [] :: splitOnChar sep rest
    else
      match splitOnChar sep rest with
      | [] => [[c]]
      | h :: t => (c :: h) :: t

/-- Per-entity body of the collection loop (resume_ner_bert.py lines 151-173):
confidence gate, label mapping, word cleanup, noise filters, and the
comma-splitting special case for skills. -/
def processItem (coll : NerCollected) (item : NerItem) : NerCollected :=
  if item.score < CONFIDENCE_THRESHOLD then coll
  else
    let label := pyOr (item.entity_group.getD "") (pyOr (item.entity.getD "") "")
    let word := stripChars wordStripSet (normalize item.word)
    match label_to_key label with
    | none => coll
    | some key =>
      if word = "" then coll
      else if key = "locations" ∧ pyLower word ∈ LOCATION_NOISE then coll
      else if key = "education" ∧ pyLower word ∈ STATE_CODES then coll
      else if key = "skills" then
        if pyLower word ∈ SKILLS_BLOCKLIST ∨ word.length < 2 then coll
        else
          let parts := (splitOnChar ',' word.data).map
            (fun p => stripChars wordStripSet (normalize (String.mk p)))
          let good := parts.filter (fun p => 2 ≤ p.length ∧ pyLower p ∉ SKILLS_BLOCKLIST)
          { coll with skills := coll.skills ++ good }
      else addToKey coll key word

/-- Per-chunk body of parse_resume_ner_bert (lines 141-173): blank chunks are
skipped, a raising pipeline call is swallowed (try/except continue), and a
successful call feeds every item through processItem. -/
def processChunk (pipe : NerPipe) (coll : NerCollected) (chunk : String) : NerCollected :=
  if pyStripWs chunk = "" then coll
  else
    match pipe.run chunk with
    | .error _ => coll
    | .ok out => out.foldl processItem coll

/-- Constant default max_roles of parse_resume_ner_bert. -/
def MAX_ROLES : Nat := 20

/-- Constant default max_skills of parse_resume_ner_bert. -/
def MAX_SKILLS : Nat := 50

/-- Embedding of parse_resume_ner_bert: empty text short-circuits to the
empty output before the model is touched; a failed model load raises (the
RuntimeError of _get_pipeline, not caught anywhere in this function); a
loaded model processes each chunk with per-chunk error recovery, then the
four lists are deduplicated with min length 2 and the role and skill lists
are truncated. -/
def parse_resume_ner_bert (load : Except String NerPipe) (resume_text : String) :
    Except String NerOutput :=
  let text := normalize resume_text
  if text = "" then .ok emptyNerOutput
  else
    match load with
    | .error _ => .error NER_LOAD_FAIL_MSG
    | .ok pipe =>
      let chunks := chunk_text pipe.encode pipe.decode text CHUNK_SIZE CHUNK_OVERLAP
      let collected := chunks.foldl (processChunk pipe) emptyCollected
      .ok { roles := (unique 2 collected.roles).take MAX_ROLES,
            skills := (unique 2 collected.skills).take MAX_SKILLS,
            education := unique 2 collected.education,
            locations := unique 2 collected.locations }

/-! Embedding of smart_search_with_file (search_script.py lines 32-116). -/

/-- Posting metadata used by the display loop. -/
structure Metadata where
  title : String
  company : String
  location : String
  work_type : String
deriving DecidableEq

/-- Single-query slice of the Chroma answer: the [0] element of each of the
parallel batch arrays ids, metadatas, documents, distances. -/
structure QueryResults where
  ids : List String
  metadatas : List Metadata
  documents : List String
  distances : List ℚ
deriving DecidableEq

/-- A query answer with every array empty, the zero-matches sentinel. -/
def emptyQueryResults : QueryResults :=
  { ids := [], metadatas := [], documents := [], distances := [] }

/-- External collaborators of the pipeline: text extraction, the lazily
loaded NER model, the Groq intent extractor, the module-level location
cache, and the vector store query (query text, n_results, where filter). -/
structure Env where
  extractText : String → String
  nerLoad : Except String NerPipe
  getFilterJson : String → Intent
  uniqueLocations : List String
  query : String → Nat → Option WhereFilter → QueryResults

/-- Combined prompt of search_script.py line 56. -/
def combinedInput (resume_text additional_query : String) : String :=
  "RESUME: " ++ resume_text.take 2000 ++ "\nUSER PREFERENCES: " ++ additional_query

/-- The intent a pipeline run extracts for a given file and query. -/
def extractedIntent (env : Env) (file_path additional_query : String) : Intent :=
  env.getFilterJson (combinedInput (env.extractText file_path) additional_query)

/-- One pass of the display loop (search_script.py lines 107-113): indexes
metadatas, distances and documents at position i and computes the score;
a missing entry is a Python IndexError. -/
def hitScore (r : QueryResults) (i : Nat) : Except String ℚ :=
  match r.metadatas.get? i, r.distances.get? i, r.documents.get? i with
  | some _, some d, some _ => .ok (matchScore d)
  | _, _, _ => .error "IndexError"

/-- The display loop over range(len(ids)). Only the computed scores are
observable; printing is dropped. -/
def loopScores (r : QueryResults) : Except String (List ℚ) :=
  (List.range r.ids.length).mapM (hitScore r)

/-- Embedding of smart_search_with_file: extract text, optionally run NER
and keep terms longer than 2 characters, extract the intent, compile the
where filter through the fuzzy location cache, compose the rich query, hit
the store, and return None with the intent when the store answers zero ids,
else the raw results with the intent. -/
def smart_search_with_file (env : Env) (file_path additional_query : String)
    (NER_applied : Bool) : Except String (Option QueryResults × Intent) :=
  let resume_text := env.extractText file_path
  let nerRes : Except String NerOutput :=
    if NER_applied then parse_resume_ner_bert env.nerLoad resume_text
    else .ok emptyNerOutput
  match nerRes with
  | .error e => .error e
  | .ok ner =>
    let roles := filter_ner_terms ner.roles
    let skills := filter_ner_terms ner.skills
    let education := filter_ner_terms ner.education
    let locations := filter_ner_terms ner.locations
    let intent := env.getFilterJson (combinedInput resume_text additional_query)
    let final_where := compileFilter env.uniqueLocations intent
    let rich_query := compose_rich_query intent additional_query NER_applied
      roles skills education locations
    let results := env.query rich_query 5 final_where
    if results.ids = [] then .ok (none, intent)
    else
      match loopScores results with
      | .error e => .error e
      | .ok _ => .ok (some results, intent)

/-! Concrete instances used by witnesses and counterexamples. -/

/-- An intent with every field null. -/
def allNullIntent : Intent :=
  { title := none, location := none, experience := none, work_type := none, company := none }

/-- An intent whose only set field is the title Dev. -/
def devTitleIntent : Intent :=
  { title := some "Dev", location := none, experience := none, work_type := none, company := none }

/-- An intent whose only set field is the title Backend Dev. -/
def backendIntent : Intent :=
  { title := some "Backend Dev", location := none, experience := none, work_type := none, company := none }

/-- Intent of the end-to-end scenario: Entry level experience and the New
York location, everything else null. -/
def entryNYIntent : Intent :=
  { title := none, location := some "New York", experience := some "Entry level",
    work_type := none, company := none }

/-- Intent with Entry level experience and a location matching nothing. -/
def entryNoLocIntent : Intent :=
  { title := none, location := some "zzz", experience := some "Entry level",
    work_type := none, company := none }

/-- Location cache of the end-to-end scenario. -/
def nyCache : List String := ["New York, NY", "New York City, NY", "Boston, MA"]

/-- Environment whose vector store always answers zero ids and whose intent
extractor answers devTitleIntent. -/
def envZeroIds : Env :=
  { extractText := fun _ => "R",
    nerLoad := Except.error "off",
    getFilterJson := fun _ => devTitleIntent,
    uniqueLocations := [],
    query := fun _ _ _ => emptyQueryResults }

/-- Environment whose NER model fails to load while the resume has text. -/
def envLoadFail : Env :=
  { extractText := fun _ => "J",
    nerLoad := Except.error "no transformers",
    getFilterJson := fun _ => devTitleIntent,
    uniqueLocations := [],
    query := fun _ _ _ => emptyQueryResults }

/-- A loaded NER pipeline whose every inference call raises. -/
def alwaysFailPipe : NerPipe :=
  { encode := fun _ => [], decode := fun _ => "", run := fun _ => Except.error () }

/-- NER output carrying one short and one long role term. -/
def shortTermOutput : NerOutput :=
  { roles := ["ab", "Engineer"], skills := [], education := [], locations := [] }

/-! Theorems settling the claims. -/

/-- The clause list a combined filter carries is the clause list it was
built from. -/
theorem filterClauses_combineWhere (cs : List WhereClause) :
    filterClauses (combineWhere cs) = cs := by
  match cs with
  | [] => rfl
  | [c] => rfl
  | c1 :: c2 :: rest => rfl

/-- Clause combination never emits a disjunction. -/
theorem combineWhere_ne_or (cs os : List WhereClause) :
    combineWhere cs ≠ some (.or os) := by
  match cs with
  | [] => simp [combineWhere]
  | [c] => simp [combineWhere]
  | c1 :: c2 :: rest => simp [combineWhere]

/-- Any member of the experience clause list comes from a truthy experience
field. -/
theorem mem_experienceClauses {intent : Intent} {c : WhereClause}
    (h : c ∈ experienceClauses intent) :
    ∃ e, intent.experience = some e ∧ e ≠ "" ∧ c = .eq "experience" e := by
  unfold experienceClauses at h
  cases hx : intent.experience with
  | none => rw [hx] at h; simp at h
  | some e =>
    rw [hx] at h
    by_cases he : e = ""
    · simp [he] at h
    · simp [he] at h
      exact ⟨e, rfl, he, h⟩

/-- Any member of the work type clause list comes from a truthy work_type
field. -/
theorem mem_workTypeClauses {intent : Intent} {c : WhereClause}
    (h : c ∈ workTypeClauses intent) :
    ∃ w, intent.work_type = some w ∧ w ≠ "" ∧ c = .eq "work_type" w := by
  unfold workTypeClauses at h
  cases hx : intent.work_type with
  | none => rw [hx] at h; simp at h
  | some w =>
    rw [hx] at h
    by_cases hw : w = ""
    · simp [hw] at h
    · simp [hw] at h
      exact ⟨w, rfl, hw, h⟩

/-- Any member of the location clause list comes from a truthy location with
a non-empty fuzzy expansion, and is the IN clause over that expansion. -/
theorem mem_locationClauses {cache : List String} {intent : Intent} {c : WhereClause}
    (h : c ∈ locationClauses cache intent) :
    ∃ l, intent.location = some l ∧ l ≠ "" ∧ get_fuzzy_locations cache l ≠ [] ∧
      c = .inn "location" (get_fuzzy_locations cache l) := by
  unfold locationClauses at h
  cases hx : intent.location with
  | none => rw [hx] at h; simp at h
  | some l =>
    rw [hx] at h
    by_cases hl : l = ""
    · simp [hl] at h
    · by_cases hv : get_fuzzy_locations cache l = []
      · simp [hl, hv] at h
      · simp [hl, hv] at h
        exact ⟨l, rfl, hl, hv, h⟩

/-- Case split for membership in the compiled clause list. -/
theorem mem_buildWhereClauses {cache : List String} {intent : Intent} {c : WhereClause}
    (h : c ∈ buildWhereClauses cache intent) :
    (∃ e, intent.experience = some e ∧ e ≠ "" ∧ c = .eq "experience" e) ∨
    (∃ w, intent.work_type = some w ∧ w ≠ "" ∧ c = .eq "work_type" w) ∨
    (∃ l, intent.location = some l ∧ l ≠ "" ∧ get_fuzzy_locations cache l ≠ [] ∧
      c = .inn "location" (get_fuzzy_locations cache l)) := by
  unfold buildWhereClauses at h
  rcases List.mem_append.1 h with h1 | h1
  · rcases List.mem_append.1 h1 with h2 | h2
    · exact Or.inl (mem_experienceClauses h2)
    · exact Or.inr (Or.inl (mem_workTypeClauses h2))
  · exact Or.inr (Or.inr (mem_locationClauses h1))

/-- The experience clause list depends only on the experience field. -/
theorem experienceClauses_congr {i1 i2 : Intent} (h : i1.experience = i2.experience) :
    experienceClauses i1 = experienceClauses i2 := by
  unfold experienceClauses
  rw [h]

/-- The work type clause list depends only on the work_type field. -/
theorem workTypeClauses_congr {i1 i2 : Intent} (h : i1.work_type = i2.work_type) :
    workTypeClauses i1 = workTypeClauses i2 := by
  unfold workTypeClauses
  rw [h]

/-- The location clause list depends only on the location field. -/
theorem locationClauses_congr (cache : List String) {i1 i2 : Intent}
    (h : i1.location = i2.location) :
    locationClauses cache i1 = locationClauses cache i2 := by
  unfold locationClauses
  rw [h]

/-- The experience clause fields form a sublist of the singleton experience. -/
theorem experienceClauses_field_sub (intent : Intent) :
    List.Sublist ((experienceClauses intent).map clauseField) ["experience"] := by
  unfold experienceClauses
  cases intent.experience with
  | none => exact List.nil_sublist _
  | some e =>
    by_cases he : e = ""
    · simp [he]
    · simp [he, clauseField]

/-- The work type clause fields form a sublist of the singleton work_type. -/
theorem workTypeClauses_field_sub (intent : Intent) :
    List.Sublist ((workTypeClauses intent).map clauseField) ["work_type"] := by
  unfold workTypeClauses
  cases intent.work_type with
  | none => exact List.nil_sublist _
  | some w =>
    by_cases hw : w = ""
    · simp [hw]
    · simp [hw, clauseField]

/-- The location clause fields form a sublist of the singleton location. -/
theorem locationClauses_field_sub (cache : List String) (intent : Intent) :
    List.Sublist ((locationClauses cache intent).map clauseField) ["location"] := by
  unfold locationClauses
  cases intent.location with
  | none => exact List.nil_sublist _
  | some l =>
    by_cases hl : l = ""
    · simp [hl]
    · by_cases hv : get_fuzzy_locations cache l = []
      · simp [hl, hv]
      · simp [hl, hv, clauseField]

/-- C3: filter compilation is a pure function of the relevant intent fields
and the cache, emits clauses in the fixed experience, work_type, location
order, adds the EQ and IN clauses exactly when the fields are truthy, and
combines zero clauses into no filter, one clause bare, and two or more into
an AND. -/
theorem claim_C3_filter_compilation :
    (∀ cache intent,
      List.Sublist ((buildWhereClauses cache intent).map clauseField)
        ["experience", "work_type", "location"]) ∧
    (∀ cache intent e, intent.experience = some e → e ≠ "" →
      WhereClause.eq "experience" e ∈ buildWhereClauses cache intent) ∧
    (∀ cache intent w, intent.work_type = some w → w ≠ "" →
      WhereClause.eq "work_type" w ∈ buildWhereClauses cache intent) ∧
    (∀ cache intent l, intent.location = some l → l ≠ "" →
      get_fuzzy_locations cache l ≠ [] →
      WhereClause.inn "location" (get_fuzzy_locations cache l) ∈
        buildWhereClauses cache intent) ∧
    (∀ cache intent, buildWhereClauses cache intent = [] →
      compileFilter cache intent = none) ∧
    (∀ cache intent c, buildWhereClauses cache intent = [c] →
      compileFilter cache intent = some (.single c)) ∧
    (∀ cache intent, 2 ≤ (buildWhereClauses cache intent).length →
      compileFilter cache intent = some (.and (buildWhereClauses cache intent))) ∧
    (∀ cache i1 i2, i1.experience = i2.experience → i1.work_type = i2.work_type →
      i1.location = i2.location → compileFilter cache i1 = compileFilter cache i2) := by
  refine ⟨?_, ?_, ?_, ?_, ?_, ?_, ?_, ?_⟩
  · intro cache intent
    unfold buildWhereClauses
    rw [List.map_append, List.map_append]
    exact List.Sublist.append
      (List.Sublist.append (experienceClauses_field_sub intent)
        (workTypeClauses_field_sub intent))
      (locationClauses_field_sub cache intent)
  · intro cache intent e h he
    apply List.mem_append_left
    apply List.mem_append_left
    simp [experienceClauses, h, he]
  · intro cache intent w h hw
    apply List.mem_append_left
    apply List.mem_append_right
    simp [workTypeClauses, h, hw]
  · intro cache intent l h hl hv
    apply List.mem_append_right
    simp [locationClauses, h, hl, hv]
  · intro cache intent h
    unfold compileFilter
    rw [h]
    rfl
  · intro cache intent c h
    unfold compileFilter
    rw [h]
    rfl
  · intro cache intent h
    unfold compileFilter
    rcases hb : buildWhereClauses cache intent with _ | ⟨c1, _ | ⟨c2, rest⟩⟩
    · rw [hb] at h; simp at h
    · rw [hb] at h; simp at h
    · rfl
  · intro cache i1 i2 h1 h2 h3
    unfold compileFilter buildWhereClauses
    rw [experienceClauses_congr h1, workTypeClauses_congr h2, locationClauses_congr cache h3]

/-- Witness for C3 on the end-to-end scenario of the spec. -/
theorem claim_C3_witness :
    WhereClause.eq "experience" "Entry level" ∈ buildWhereClauses nyCache entryNYIntent ∧
    WhereClause.inn "location" (get_fuzzy_locations nyCache "New York") ∈
      buildWhereClauses nyCache entryNYIntent ∧
    compileFilter nyCache entryNYIntent =
      some (.and (buildWhereClauses nyCache entryNYIntent)) :=
  ⟨claim_C3_filter_compilation.2.1 nyCache entryNYIntent "Entry level" rfl (by decide),
   claim_C3_filter_compilation.2.2.2.1 nyCache entryNYIntent "New York" rfl (by decide)
     (by decide),
   claim_C3_filter_compilation.2.2.2.2.2.2.1 nyCache entryNYIntent (by decide)⟩

/-- C7: the compiled filter never carries a top-level OR, every IN clause
carries a non-empty value set, and an intent location whose fuzzy expansion
is empty contributes no location clause at all. -/
theorem claim_C7_filter_invariants :
    (∀ cache intent cs, compileFilter cache intent ≠ some (.or cs)) ∧
    (∀ cache intent f vs,
      WhereClause.inn f vs ∈ filterClauses (compileFilter cache intent) → vs ≠ []) ∧
    (∀ cache intent l, intent.location = some l → get_fuzzy_locations cache l = [] →
      ∀ c, c ∈ filterClauses (compileFilter cache intent) → clauseField c ≠ "location") := by
  refine ⟨?_, ?_, ?_⟩
  · intro cache intent cs
    unfold compileFilter
    exact combineWhere_ne_or _ cs
  · intro cache intent f vs h
    unfold compileFilter at h
    rw [filterClauses_combineWhere] at h
    rcases mem_buildWhereClauses h with ⟨e, _, _, hc⟩ | ⟨w, _, _, hc⟩ | ⟨l, _, _, hv, hc⟩
    · cases hc
    · cases hc
    · cases hc
      exact hv
  · intro cache intent l hl hf c hc
    unfold compileFilter at hc
    rw [filterClauses_combineWhere] at hc
    rcases mem_buildWhereClauses hc with ⟨e, _, _, hc2⟩ | ⟨w, _, _, hc2⟩ | ⟨l2, hl2, _, hv, _⟩
    · rw [hc2]; simp only [clauseField]; decide
    · rw [hc2]; simp only [clauseField]; decide
    · rw [hl] at hl2
      cases hl2
      exact absurd hf hv

/-- Witness for C7: with location zzz matching nothing in the cache, the
surviving clause is the experience clause, whose field is not location. -/
theorem claim_C7_witness :
    clauseField (WhereClause.eq "experience" "Entry level") ≠ "location" :=
  claim_C7_filter_invariants.2.2 ["Boston, MA"] entryNoLocIntent "zzz" rfl (by decide)
    (WhereClause.eq "experience" "Entry level") (by decide)

/-- C4: fuzzy location resolution returns exactly the cache entries whose
lowercase form contains the lowercased user location as a substring, hence
always a subset of the cache, and the empty list for a null or empty user
location. -/
theorem claim_C4_fuzzy_location_resolution :
    (∀ cache u, get_fuzzy_locations cache u ⊆ cache) ∧
    (∀ cache, get_fuzzy_locations cache "" = []) ∧
    (∀ cache, get_fuzzy_locations_opt cache none = []) ∧
    (∀ cache u, u ≠ "" → ∀ loc,
      (loc ∈ get_fuzzy_locations cache u ↔
        loc ∈ cache ∧ strContains (pyLower loc) (pyLower u) = true)) := by
  refine ⟨?_, ?_, ?_, ?_⟩
  · intro cache u
    unfold get_fuzzy_locations
    split
    · exact List.nil_subset cache
    · exact List.filter_subset' cache
  · intro cache
    simp [get_fuzzy_locations]
  · intro cache
    rfl
  · intro cache u hu loc
    simp [get_fuzzy_locations, hu, List.mem_filter]

/-- Witness for C4 at a concrete cache and user location. -/
theorem claim_C4_witness :
    "New York" ≠ "" ∧
    ("New York, NY" ∈ get_fuzzy_locations nyCache "New York" ↔
      "New York, NY" ∈ nyCache ∧
        strContains (pyLower "New York, NY") (pyLower "New York") = true) :=
  ⟨by decide,
   claim_C4_fuzzy_location_resolution.2.2.2 nyCache "New York" (by decide) "New York, NY"⟩

/-- C2 fails on the code: with an empty additional query, a null title and
fusion disabled the composed query is the empty string, not the literal
Job Opportunity; search_script.py line 84 falls back to the empty string. -/
theorem claim_C2_counterexample :
    compose_rich_query allNullIntent "" false [] [] [] [] = "" ∧
    compose_rich_query allNullIntent "" false [] [] [] [] ≠ "Job Opportunity" :=
  ⟨rfl, by decide⟩

/-- C2 amended: the base term is intent.title when present and non-empty,
else the raw additional query when non-empty, else the empty string (not
the literal Job Opportunity). -/
theorem claim_C2_base_term_amended :
    (∀ intent aq t, intent.title = some t → t ≠ "" →
      compose_rich_query intent aq false [] [] [] [] = t) ∧
    (∀ intent aq, (intent.title = none ∨ intent.title = some "") → aq ≠ "" →
      compose_rich_query intent aq false [] [] [] [] = aq) ∧
    (∀ intent, (intent.title = none ∨ intent.title = some "") →
      compose_rich_query intent "" false [] [] [] [] = "") := by
  refine ⟨?_, ?_, ?_⟩
  · intro intent aq t ht htne
    simp [compose_rich_query, base_query_of, pyOr, ht, htne]
  · intro intent aq ht haq
    rcases ht with h | h <;> simp [compose_rich_query, base_query_of, pyOr, h, haq]
  · intro intent ht
    rcases ht with h | h <;> simp [compose_rich_query, base_query_of, pyOr, h]

/-- Witness for C2 amended, one instance per case. -/
theorem claim_C2_witness :
    compose_rich_query devTitleIntent "q" false [] [] [] [] = "Dev" ∧
    compose_rich_query allNullIntent "q" false [] [] [] [] = "q" ∧
    compose_rich_query allNullIntent "" false [] [] [] [] = "" :=
  ⟨claim_C2_base_term_amended.1 devTitleIntent "q" "Dev" rfl (by decide),
   claim_C2_base_term_amended.2.1 allNullIntent "q" (Or.inl rfl) (by decide),
   claim_C2_base_term_amended.2.2 allNullIntent (Or.inl rfl)⟩

/-- C6: with fusion enabled the composed query is the base term, one space,
then the space-join of roles, skills, education and locations in that fixed
order with no cross-category deduplication; in particular the spec example
evaluates to exactly Backend Dev Engineer Python. -/
theorem claim_C6_query_fusion :
    (∀ intent aq roles skills education locations,
      compose_rich_query intent aq true roles skills education locations =
        compose_rich_query intent aq false [] [] [] [] ++ " " ++
          String.intercalate " " (roles ++ skills ++ education ++ locations)) ∧
    compose_rich_query backendIntent "" true ["Engineer"] ["Python"] [] [] =
      "Backend Dev Engineer Python" ∧
    compose_rich_query backendIntent "" true ["Engineer"] ["Engineer"] [] [] =
      "Backend Dev Engineer Engineer" := by
  refine ⟨?_, by decide, by decide⟩
  intro intent aq roles skills education locations
  simp [compose_rich_query]

/-- C9 fails on the code: fusing an all-empty profile does not reproduce the
base term; search_script.py line 89 always inserts the separator space, so
the fused query carries a trailing space the fusion-disabled query lacks. -/
theorem claim_C9_counterexample :
    compose_rich_query backendIntent "" true [] [] [] [] = "Backend Dev " ∧
    compose_rich_query backendIntent "" false [] [] [] [] = "Backend Dev" ∧
    compose_rich_query backendIntent "" true [] [] [] [] ≠
      compose_rich_query backendIntent "" false [] [] [] [] := by
  refine ⟨by decide, rfl, by decide⟩

/-- C9 amended: empty profile lists contribute no terms, but the separator
space is still emitted, so fusing an all-empty profile yields the base term
plus exactly one trailing space. -/
theorem claim_C9_trailing_space_amended :
    ∀ intent aq,
      compose_rich_query intent aq true [] [] [] [] =
        compose_rich_query intent aq false [] [] [] [] ++ " " := by
  intro intent aq
  simp [compose_rich_query]
  exact String.append_empty _

/-- Half-even rounding moves a value by at most one half. -/
theorem pyRoundHalfEven_bounds (x : ℚ) :
    x - 1/2 ≤ (pyRoundHalfEven x : ℚ) ∧ (pyRoundHalfEven x : ℚ) ≤ x + 1/2 := by
  have h1 : (⌊x⌋ : ℚ) ≤ x := Int.floor_le x
  have h2 : x < (⌊x⌋ : ℚ) + 1 := Int.lt_floor_add_one x
  unfold pyRoundHalfEven
  split_ifs with hf1 hf2 hf3 <;> constructor <;> push_cast <;> linarith

/-- Half-even rounding fixes integers. -/
theorem pyRoundHalfEven_intCast (n : ℤ) : pyRoundHalfEven (n : ℚ) = n := by
  unfold pyRoundHalfEven
  rw [Int.floor_intCast]
  norm_num

/-- The score at a distance whose scaled value is the integer n. -/
theorem matchScore_eq_int (d : ℚ) (n : ℤ) (h : (1 - d) * 100 * 100 = (n : ℚ)) :
    matchScore d = (n : ℚ) / 100 := by
  unfold matchScore pyRound2
  rw [h, pyRoundHalfEven_intCast]

/-- C5: the match score is round((1 - d) * 100, 2) with no clamping: the
spec distances 0, 1/4 and 1 give exactly 100, 75 and 0, and any distance
beyond the unit interval by at least the rounding granularity 1/10000
produces a score outside [0, 100] instead of a clamped one. -/
theorem claim_C5_match_score :
    matchScore 0 = 100 ∧
    matchScore (1/4) = 75 ∧
    matchScore 1 = 0 ∧
    matchScore (3/2) = -50 ∧
    (∀ d : ℚ, 1 + 1/10000 ≤ d → matchScore d < 0) ∧
    (∀ d : ℚ, d ≤ -(1/10000) → 100 < matchScore d) := by
  refine ⟨?_, ?_, ?_, ?_, ?_, ?_⟩
  · rw [matchScore_eq_int 0 10000 (by norm_num)]; norm_num
  · rw [matchScore_eq_int (1/4) 7500 (by norm_num)]; norm_num
  · rw [matchScore_eq_int 1 0 (by norm_num)]; norm_num
  · rw [matchScore_eq_int (3/2) (-5000) (by norm_num)]; norm_num
  · intro d hd
    unfold matchScore pyRound2
    have hb := (pyRoundHalfEven_bounds ((1 - d) * 100 * 100)).2
    have hneg : (pyRoundHalfEven ((1 - d) * 100 * 100) : ℚ) < 0 := by linarith
    exact div_neg_of_neg_of_pos hneg (by norm_num)
  · intro d hd
    unfold matchScore pyRound2
    rw [lt_div_iff₀ (by norm_num : (0:ℚ) < 100)]
    have hb := (pyRoundHalfEven_bounds ((1 - d) * 100 * 100)).1
    linarith

/-- Witness for C5 at the distances 2 and -1, both outside the unit
interval. -/
theorem claim_C5_witness :
    ((1 : ℚ) + 1/10000 ≤ 2) ∧ matchScore 2 < 0 ∧
    ((-1 : ℚ) ≤ -(1/10000)) ∧ 100 < matchScore (-1) :=
  ⟨by norm_num, claim_C5_match_score.2.2.2.2.1 2 (by norm_num),
   by norm_num, claim_C5_match_score.2.2.2.2.2 (-1) (by norm_num)⟩

/-- C10: every NER term of length at most 2 is discarded by the pipeline
filter (search_script.py lines 49-52), so it is never among the terms the
fused query joins. -/
theorem claim_C10_short_terms_discarded :
    ∀ (out : NerOutput) (s : String), s.length ≤ 2 →
      s ∉ filter_ner_terms out.roles ++ filter_ner_terms out.skills ++
          filter_ner_terms out.education ++ filter_ner_terms out.locations := by
  intro out s hs hmem
  simp [filter_ner_terms, List.mem_append, List.mem_filter] at hmem
  rcases hmem with ⟨_, h⟩ | ⟨_, h⟩ | ⟨_, h⟩ | ⟨_, h⟩ <;> omega

/-- Witness for C10 at a concrete output and term. -/
theorem claim_C10_witness :
    ("ab" : String).length ≤ 2 ∧
    "ab" ∉ filter_ner_terms shortTermOutput.roles ++ filter_ner_terms shortTermOutput.skills ++
        filter_ner_terms shortTermOutput.education ++ filter_ner_terms shortTermOutput.locations :=
  ⟨by decide, claim_C10_short_terms_discarded shortTermOutput "ab" (by decide)⟩

/-- A loaded NER parse never raises: both the empty-text short circuit and
the chunk loop produce an ok value. -/
theorem parse_resume_ner_bert_ok (pipe : NerPipe) (text : String) :
    ∃ out, parse_resume_ner_bert (.ok pipe) text = .ok out := by
  unfold parse_resume_ner_bert
  by_cases h : normalize text = ""
  · exact ⟨emptyNerOutput, by simp [h]⟩
  · exact ⟨_, by rw [if_neg h]⟩

/-- A failed NER load propagates the RuntimeError whenever the normalized
resume text is non-empty. -/
theorem parse_resume_ner_bert_load_error (e text : String) (h : normalize text ≠ "") :
    parse_resume_ner_bert (.error e) text = .error NER_LOAD_FAIL_MSG := by
  unfold parse_resume_ner_bert
  simp [h]

/-- A fold whose step fixes the accumulator is the identity. -/
theorem foldl_fixed {α β : Type} (f : α → β → α) (h : ∀ a b, f a b = a) :
    ∀ (l : List β) (a : α), l.foldl f a = a := by
  intro l
  induction l with
  | nil => intro a; rfl
  | cons x xs ih =>
    intro a
    rw [List.foldl_cons, h a x]
    exact ih a

/-- C1 amended: whenever the store answers zero ids (and the NER stage did
not already abort: fusion disabled or a loaded model), the pipeline returns
ok with a null first component and the extracted intent — never an error
and never a null intent, but also not an empty result object. -/
theorem claim_C1_zero_ids_amended :
    ∀ (env : Env) (fp aq : String) (ner : Bool),
      (∀ q k w, (env.query q k w).ids = []) →
      (ner = false ∨ ∃ p, env.nerLoad = .ok p) →
      smart_search_with_file env fp aq ner =
        .ok (none, extractedIntent env fp aq) := by
  intro env fp aq ner hstore hner
  rcases hner with hner | ⟨p, hp⟩
  · subst hner
    unfold smart_search_with_file
    simp [hstore, extractedIntent]
  · cases ner with
    | false =>
      unfold smart_search_with_file
      simp [hstore, extractedIntent]
    | true =>
      obtain ⟨out, hout⟩ := parse_resume_ner_bert_ok p (env.extractText fp)
      unfold smart_search_with_file
      rw [hp]
      simp [hout, hstore, extractedIntent]

/-- C1 fails as stated: on a store answering zero ids the pipeline returns
a null results slot paired with the intent, not an empty MatchResult
object (search_script.py line 105 returns None, intent). -/
theorem claim_C1_counterexample :
    smart_search_with_file envZeroIds "cv.pdf" "" false =
      .ok (none, devTitleIntent) ∧
    smart_search_with_file envZeroIds "cv.pdf" "" false ≠
      .ok (some emptyQueryResults, devTitleIntent) := by
  constructor
  · rfl
  · intro h
    rw [show smart_search_with_file envZeroIds "cv.pdf" "" false =
        Except.ok ((none : Option QueryResults), devTitleIntent) from rfl] at h
    simp at h

/-- Witness for C1 amended on the concrete zero-id environment. -/
theorem claim_C1_witness :
    smart_search_with_file envZeroIds "r.pdf" "q" false =
      .ok (none, extractedIntent envZeroIds "r.pdf" "q") :=
  claim_C1_zero_ids_amended envZeroIds "r.pdf" "q" false (fun _ _ _ => rfl) (Or.inl rfl)

/-- C8 fails as stated: a model-load failure with non-empty resume text
aborts the whole request with the RuntimeError instead of proceeding with
an empty Profile (parse_resume_ner is called with no try in
search_script.py line 45, and _get_pipeline raises). -/
theorem claim_C8_counterexample :
    smart_search_with_file envLoadFail "cv.pdf" "" true = .error NER_LOAD_FAIL_MSG := rfl

/-- C8 amended: per-chunk inference failures are recovered (an always
failing inference yields the empty profile and the pipeline proceeds), and
empty resume text never touches the model, but a model-load failure with
non-empty text propagates out of the NER parse and aborts the pipeline. -/
theorem claim_C8_extractor_failure_amended :
    (∀ (pipe : NerPipe) (text : String), (∀ chunk, pipe.run chunk = .error ()) →
      parse_resume_ner_bert (.ok pipe) text = .ok emptyNerOutput) ∧
    (∀ (e text : String), normalize text ≠ "" →
      parse_resume_ner_bert (.error e) text = .error NER_LOAD_FAIL_MSG) ∧
    (∀ (e text : String), normalize text = "" →
      parse_resume_ner_bert (.error e) text = .ok emptyNerOutput) ∧
    (∀ (env : Env) (fp aq e : String), env.nerLoad = .error e →
      normalize (env.extractText fp) ≠ "" →
      smart_search_with_file env fp aq true = .error NER_LOAD_FAIL_MSG) := by
  refine ⟨?_, ?_, ?_, ?_⟩
  · intro pipe text hrun
    have hfix : ∀ (coll : NerCollected) (chunk : String), processChunk pipe coll chunk = coll := by
      intro coll chunk
      unfold processChunk
      by_cases hc : pyStripWs chunk = ""
      · simp [hc]
      · simp [hc, hrun chunk]
    unfold parse_resume_ner_bert
    by_cases h : normalize text = ""
    · simp [h]
    · simp only [h, if_false]
      rw [foldl_fixed (processChunk pipe) hfix]
      rfl
  · intro e text h
    exact parse_resume_ner_bert_load_error e text h
  · intro e text h
    unfold parse_resume_ner_bert
    simp [h]
  · intro env fp aq e he hn
    unfold smart_search_with_file
    rw [he]
    simp [parse_resume_ner_bert_load_error e _ hn]

/-- Witness for C8 amended: a pipeline whose every inference call raises
still parses to the empty profile, and a failed load on the same text
raises the RuntimeError. -/
theorem claim_C8_witness :
    parse_resume_ner_bert (.ok alwaysFailPipe) "John Doe" = .ok emptyNerOutput ∧
    parse_resume_ner_bert (.error "x") "John Doe" = .error NER_LOAD_FAIL_MSG :=
  ⟨claim_C8_extractor_failure_amended.1 alwaysFailPipe "John Doe" (fun _ => rfl),
   claim_C8_extractor_failure_amended.2.1 "x" "John Doe" (by decide)⟩

end SmartCV
